import Mathlib

/-!
Verification of the NCP5623 RGB LED driver (src/src/lib.rs).

The driver is embedded shallowly: `u8` values become `Nat` (every operation
here only ORs disjoint bit fields, so no wraparound arises), the I2C
transport (`embedded_hal::i2c::I2c`) becomes a pure response function
`Nat → List Nat → Except E Unit` giving the outcome of a write of a byte
slice to an address, and each driver operation returns its Rust result
together with the list of transport write calls it issued, in order
(a failing write call is still recorded: the bus transaction was attempted).
The transport error type `E` stays a type parameter, as in the Rust source.
-/

namespace NCP

/-- The driver error type (`Error<E>` in src/src/lib.rs). `WriteError` wraps
the transport failure value; `InvalidAddress` carries the offending address. -/
inductive Error (E : Type) where
  | InvalidValue : Error E
  | WriteError : E → Error E
  | InvalidAddress : Nat → Error E
  deriving DecidableEq, Repr

/-- The eight chip commands (`Command` in src/src/lib.rs). -/
inductive Command where
  | Shutdown
  | SetMaxCurrent
  | SetRed
  | SetGreen
  | SetBlue
  | UpwardTarget
  | DownwardTarget
  | DimmingStart
  deriving DecidableEq, Repr

/-- The `u8` discriminant of each `Command` variant, exactly the literals of
the Rust enum. -/
def Command.toU8 : Command → Nat
  | .Shutdown => 0b0
  | .SetMaxCurrent => 0b00100000
  | .SetRed => 0b01000000
  | .SetGreen => 0b01100000
  | .SetBlue => 0b10000000
  | .UpwardTarget => 0b10100000
  | .DownwardTarget => 0b11000000
  | .DimmingStart => 0b11100000

/-- `DEFAULT_ADDRESS` constant (0x38). -/
def DEFAULT_ADDRESS : Nat := 0x38

/-- One transport write call: target address and the byte slice passed to
`i2c.write`. The driver always passes a one-byte slice. -/
structure WriteCall where
  addr : Nat
  data : List Nat
  deriving DecidableEq, Repr

/-- The device handle (`NCP5623<I2C>`): the transport, modelled by its
response function, and the bound bus address. -/
structure NCP5623 (E : Type) where
  i2c : Nat → List Nat → Except E Unit
  address : Nat

variable {E : Type}

/-- `build_command`: `(cmd as u8) | value`. -/
def build_command (cmd : Command) (value : Nat) : Nat :=
  Nat.lor cmd.toU8 value

/-- `validate_value`: error `InvalidValue` when the value exceeds `0b11111`. -/
def validate_value (E : Type) (value : Nat) : Except (Error E) Unit :=
  if value > 0b11111 then .error .InvalidValue else .ok ()

/-- `send_command`: one transport write of the built byte to the bound
address; a transport failure is wrapped in `Error.WriteError`. The second
component records the write call that was issued. -/
def send_command (d : NCP5623 E) (cmd : Command) (value : Nat) :
    Except (Error E) Unit × List WriteCall :=
  match d.i2c d.address [build_command cmd value] with
  | .ok _ => (.ok (), [⟨d.address, [build_command cmd value]⟩])
  | .error e => (.error (.WriteError e), [⟨d.address, [build_command cmd value]⟩])

/-- `shutdown`: `send_command(Command::Shutdown, 0)`. -/
def shutdown (d : NCP5623 E) : Except (Error E) Unit × List WriteCall :=
  send_command d .Shutdown 0

/-- `set_red`: validate then send `Command::SetRed`. -/
def set_red (d : NCP5623 E) (pwm_value : Nat) :
    Except (Error E) Unit × List WriteCall :=
  match validate_value E pwm_value with
  | .error err => (.error err, [])
  | .ok _ => send_command d .SetRed pwm_value

/-- `set_green`: validate then send `Command::SetGreen`. -/
def set_green (d : NCP5623 E) (pwm_value : Nat) :
    Except (Error E) Unit × List WriteCall :=
  match validate_value E pwm_value with
  | .error err => (.error err, [])
  | .ok _ => send_command d .SetGreen pwm_value

/-- `set_blue`: validate then send `Command::SetBlue`. -/
def set_blue (d : NCP5623 E) (pwm_value : Nat) :
    Except (Error E) Unit × List WriteCall :=
  match validate_value E pwm_value with
  | .error err => (.error err, [])
  | .ok _ => send_command d .SetBlue pwm_value

/-- `set_rgb`: validate all three values (with `?`-style early return), then
send red, green, blue in that order, stopping at the first failing write and
concatenating the write calls issued. -/
def set_rgb (d : NCP5623 E) (red_pwm_value green_pwm_value blue_pwm_value : Nat) :
    Except (Error E) Unit × List WriteCall :=
  match validate_value E red_pwm_value with
  | .error err => (.error err, [])
  | .ok _ =>
    match validate_value E green_pwm_value with
    | .error err => (.error err, [])
    | .ok _ =>
      match validate_value E blue_pwm_value with
      | .error err => (.error err, [])
      | .ok _ =>
        match send_command d .SetRed red_pwm_value with
        | (.error e, w1) => (.error e, w1)
        | (.ok _, w1) =>
          match send_command d .SetGreen green_pwm_value with
          | (.error e, w2) => (.error e, w1 ++ w2)
          | (.ok _, w2) =>
            match send_command d .SetBlue blue_pwm_value with
            | (res, w3) => (res, w1 ++ w2 ++ w3)

/-- `set_max_current`: validate then send `Command::SetMaxCurrent`. -/
def set_max_current (d : NCP5623 E) (max_current : Nat) :
    Except (Error E) Unit × List WriteCall :=
  match validate_value E max_current with
  | .error err => (.error err, [])
  | .ok _ => send_command d .SetMaxCurrent max_current

/-- `set_upward_target`: validate then send `Command::UpwardTarget`. -/
def set_upward_target (d : NCP5623 E) (target : Nat) :
    Except (Error E) Unit × List WriteCall :=
  match validate_value E target with
  | .error err => (.error err, [])
  | .ok _ => send_command d .UpwardTarget target

/-- `set_downward_target`: validate then send `Command::DownwardTarget`. -/
def set_downward_target (d : NCP5623 E) (target : Nat) :
    Except (Error E) Unit × List WriteCall :=
  match validate_value E target with
  | .error err => (.error err, [])
  | .ok _ => send_command d .DownwardTarget target

/-- `start_dimming`: validate then send `Command::DimmingStart`. -/
def start_dimming (d : NCP5623 E) (period : Nat) :
    Except (Error E) Unit × List WriteCall :=
  match validate_value E period with
  | .error err => (.error err, [])
  | .ok _ => send_command d .DimmingStart period

/-- `new_unchecked`: store the transport and the address as given. -/
def new_unchecked (i2c : Nat → List Nat → Except E Unit) (address : Nat) :
    NCP5623 E :=
  ⟨i2c, address⟩

/-- `new_default_address`: `new_unchecked` at `DEFAULT_ADDRESS`; returns the
handle directly, with no failure path. -/
def new_default_address (i2c : Nat → List Nat → Except E Unit) : NCP5623 E :=
  new_unchecked i2c DEFAULT_ADDRESS

/-- `new`: reject addresses above 127 with `InvalidAddress`, otherwise
delegate to `new_unchecked`. Pure: no transport call is made. -/
def new (i2c : Nat → List Nat → Except E Unit) (address : Nat) :
    Except (Error E) (NCP5623 E) :=
  if address > 127 then .error (.InvalidAddress address)
  else .ok (new_unchecked i2c address)

/-- A transport double whose writes always succeed. -/
def okTransport : Nat → List Nat → Except Unit Unit :=
  fun _ _ => .ok ()

/-- A transport double that fails (with error value `()`) exactly on the
one-byte slice `[bad]` and succeeds on everything else. -/
def failTransport (bad : Nat) : Nat → List Nat → Except Unit Unit :=
  fun _ data => if data = [bad] then .error () else .ok ()

end NCP

namespace NCP

/-- Helper: validation succeeds on in-range values. -/
theorem validate_value_le {v : Nat} (h : v ≤ 31) :
    validate_value E v = .ok () := by
  unfold validate_value
  rw [if_neg (by omega)]

/-- Helper: validation fails with `InvalidValue` on out-of-range values. -/
theorem validate_value_gt {v : Nat} (h : 31 < v) :
    validate_value E v = .error .InvalidValue := by
  unfold validate_value
  rw [if_pos h]

/-- Claim C1: for every command `c` other than `Shutdown` and every value
`v < 32`, the encoder produces `fixed_opcode(c) ||| v`; since the two bit
fields are disjoint this equals `c.toU8 + v`, the low 5 bits of the byte
are exactly `v`, and the high 3 bits recover the opcode unchanged. -/
theorem build_command_encodes (c : Command) (hc : c ≠ Command.Shutdown)
    (v : Nat) (hv : v < 32) :
    build_command c v = Nat.lor c.toU8 v ∧
    build_command c v = c.toU8 + v ∧
    build_command c v % 32 = v ∧
    build_command c v / 32 * 32 = c.toU8 := by
  have h : ∀ w, w < 32 →
      (build_command c w = Nat.lor c.toU8 w ∧
       build_command c w = c.toU8 + w ∧
       build_command c w % 32 = w ∧
       build_command c w / 32 * 32 = c.toU8) := by
    cases c <;> decide
  exact h v hv

/-- Witness for C1 at `SetRed`, `v = 0x11`. -/
theorem build_command_encodes_witness :
    build_command Command.SetRed 0x11 = Nat.lor 0x40 0x11 ∧
    build_command Command.SetRed 0x11 = 0x40 + 0x11 ∧
    build_command Command.SetRed 0x11 % 32 = 0x11 ∧
    build_command Command.SetRed 0x11 / 32 * 32 = 0x40 :=
  build_command_encodes Command.SetRed (by decide) 0x11 (by decide)

/-- Claim C7: `shutdown` always issues exactly one write of the literal
byte `0x00` to the bound address (whatever the transport then answers);
it takes no value argument at all. -/
theorem shutdown_sends_zero_byte (d : NCP5623 E) :
    (shutdown d).2 = [⟨d.address, [0]⟩] := by
  have hz : build_command Command.Shutdown 0 = 0 := by decide
  unfold shutdown send_command
  split <;> simp [hz]

/-- Claim C8: the checked constructor accepts every address in [0,127],
binding exactly that address, and rejects every address in [128,255] with
`InvalidAddress` carrying the address; it is pure, so no transport call
occurs in either case. -/
theorem new_address_check (i2c : Nat → List Nat → Except E Unit) (a : Nat) :
    (a ≤ 127 → new i2c a = .ok ⟨i2c, a⟩) ∧
    (127 < a → a ≤ 255 → new i2c a = .error (.InvalidAddress a)) := by
  constructor
  · intro h
    unfold new new_unchecked
    rw [if_neg (by omega)]
  · intro h _
    unfold new
    rw [if_pos h]

/-- Witness for C8 at addresses 100 (accepted) and 200 (rejected). -/
theorem new_address_check_witness :
    new okTransport 100 = .ok ⟨okTransport, 100⟩ ∧
    new okTransport 200 = .error (.InvalidAddress 200) :=
  ⟨(new_address_check okTransport 100).1 (by decide),
   (new_address_check okTransport 200).2 (by decide) (by decide)⟩

/-- Claim C9: default-address construction never fails (it returns the
handle directly, with no error path in its type) and binds address 0x38. -/
theorem new_default_address_is_default
    (i2c : Nat → List Nat → Except E Unit) :
    (new_default_address i2c).address = 0x38 ∧
    new_default_address i2c = new_unchecked i2c 0x38 :=
  ⟨rfl, rfl⟩

/-- Claim C10: the unchecked constructor never fails and binds exactly the
given address, for every byte value including those above 127, with no
range check and no truncation. -/
theorem new_unchecked_exact (i2c : Nat → List Nat → Except E Unit)
    (a : Nat) (ha : a ≤ 255) :
    (new_unchecked i2c a).address = a :=
  rfl

/-- Witness for C10 at address 200, above the 7-bit range. -/
theorem new_unchecked_exact_witness :
    (new_unchecked okTransport 200).address = 200 :=
  new_unchecked_exact okTransport 200 (by decide)

end NCP

namespace NCP

/-- Counterexample to C2: `send_command` is a public operation of the
device handle (`pub fn send_command`) and performs no validation, so the
out-of-range value 63 is not rejected: the call succeeds and transmits the
byte `0x40 ||| 63 = 127`, whose high 3 bits no longer equal the `SetRed`
opcode — the opcode bits of a transmitted byte were corrupted. -/
theorem send_command_skips_validation :
    send_command (new_default_address okTransport) Command.SetRed 63 =
      (.ok (), [⟨DEFAULT_ADDRESS, [127]⟩]) ∧
    127 / 32 * 32 ≠ Command.toU8 Command.SetRed :=
  ⟨rfl, by decide⟩

/-- Claim C2 (amended): for every semantic operation of the device handle
(set_red, set_green, set_blue, set_rgb, set_max_current, set_upward_target,
set_downward_target, start_dimming — every public operation except the
low-level `send_command`, which performs no validation), a parameter value
outside [0,31] is rejected with `InvalidValue` before any bus activity:
the issued write-call trace is empty. -/
theorem validated_ops_reject_before_bus (d : NCP5623 E) (v : Nat)
    (hv : 31 < v) :
    (set_red d v = (.error .InvalidValue, []) ∧
     set_green d v = (.error .InvalidValue, []) ∧
     set_blue d v = (.error .InvalidValue, []) ∧
     set_max_current d v = (.error .InvalidValue, []) ∧
     set_upward_target d v = (.error .InvalidValue, []) ∧
     set_downward_target d v = (.error .InvalidValue, []) ∧
     start_dimming d v = (.error .InvalidValue, [])) ∧
    (∀ r g b : Nat, 31 < r ∨ 31 < g ∨ 31 < b →
      set_rgb d r g b = (.error .InvalidValue, [])) := by
  constructor
  · refine ⟨?_, ?_, ?_, ?_, ?_, ?_, ?_⟩ <;>
      simp [set_red, set_green, set_blue, set_max_current, set_upward_target,
        set_downward_target, start_dimming, validate_value_gt hv]
  · intro r g b h
    rcases Nat.lt_or_ge 31 r with hr | hr
    · simp [set_rgb, validate_value_gt hr]
    · rcases Nat.lt_or_ge 31 g with hg | hg
      · simp [set_rgb, validate_value_le hr, validate_value_gt hg]
      · rcases h with h | h | h
        · omega
        · omega
        · simp [set_rgb, validate_value_le hr, validate_value_le hg,
            validate_value_gt h]

/-- Witness for C2 (amended) at `v = 40` on a handle whose transport always
succeeds; the rgb clause is instantiated at `(0, 40, 0)`. -/
theorem validated_ops_reject_before_bus_witness :
    (set_red (new_default_address okTransport) 40 =
        (.error .InvalidValue, []) ∧
     set_green (new_default_address okTransport) 40 =
        (.error .InvalidValue, []) ∧
     set_blue (new_default_address okTransport) 40 =
        (.error .InvalidValue, []) ∧
     set_max_current (new_default_address okTransport) 40 =
        (.error .InvalidValue, []) ∧
     set_upward_target (new_default_address okTransport) 40 =
        (.error .InvalidValue, []) ∧
     set_downward_target (new_default_address okTransport) 40 =
        (.error .InvalidValue, []) ∧
     start_dimming (new_default_address okTransport) 40 =
        (.error .InvalidValue, [])) ∧
    set_rgb (new_default_address okTransport) 0 40 0 =
        (.error .InvalidValue, []) :=
  ⟨(validated_ops_reject_before_bus (new_default_address okTransport) 40
      (by decide)).1,
   (validated_ops_reject_before_bus (new_default_address okTransport) 40
      (by decide)).2 0 40 0 (Or.inr (Or.inl (by decide)))⟩

/-- Claim C3: every single-parameter operation rejects any value in
(31, 255] with `InvalidValue` and issues zero transport writes. -/
theorem single_param_ops_reject (d : NCP5623 E) (v : Nat)
    (h1 : 31 < v) (h2 : v ≤ 255) :
    set_red d v = (.error .InvalidValue, []) ∧
    set_green d v = (.error .InvalidValue, []) ∧
    set_blue d v = (.error .InvalidValue, []) ∧
    set_max_current d v = (.error .InvalidValue, []) ∧
    set_upward_target d v = (.error .InvalidValue, []) ∧
    set_downward_target d v = (.error .InvalidValue, []) ∧
    start_dimming d v = (.error .InvalidValue, []) := by
  refine ⟨?_, ?_, ?_, ?_, ?_, ?_, ?_⟩ <;>
    simp [set_red, set_green, set_blue, set_max_current, set_upward_target,
      set_downward_target, start_dimming, validate_value_gt h1]

/-- Witness for C3 at `v = 100`. -/
theorem single_param_ops_reject_witness :
    set_red (new_default_address okTransport) 100 =
        (.error .InvalidValue, []) ∧
    set_green (new_default_address okTransport) 100 =
        (.error .InvalidValue, []) ∧
    set_blue (new_default_address okTransport) 100 =
        (.error .InvalidValue, []) ∧
    set_max_current (new_default_address okTransport) 100 =
        (.error .InvalidValue, []) ∧
    set_upward_target (new_default_address okTransport) 100 =
        (.error .InvalidValue, []) ∧
    set_downward_target (new_default_address okTransport) 100 =
        (.error .InvalidValue, []) ∧
    start_dimming (new_default_address okTransport) 100 =
        (.error .InvalidValue, []) :=
  single_param_ops_reject (new_default_address okTransport) 100
    (by decide) (by decide)

/-- Claim C4: whenever the second or third value passed to `set_rgb`
exceeds 31, the call returns `InvalidValue` and issues zero transport
writes — all validation happens before the first byte is sent, whatever
the first value is. -/
theorem set_rgb_rejects_late_invalid (d : NCP5623 E) (r g b : Nat)
    (h : 31 < g ∨ 31 < b) :
    set_rgb d r g b = (.error .InvalidValue, []) := by
  rcases Nat.lt_or_ge 31 r with hr | hr
  · simp [set_rgb, validate_value_gt hr]
  · rcases Nat.lt_or_ge 31 g with hg | hg
    · simp [set_rgb, validate_value_le hr, validate_value_gt hg]
    · rcases h with h | h
      · omega
      · simp [set_rgb, validate_value_le hr, validate_value_le hg,
          validate_value_gt h]

/-- Witness for C4: an invalid third value, valid first and second. -/
theorem set_rgb_rejects_late_invalid_witness :
    set_rgb (new_default_address okTransport) 1 2 200 =
      (.error .InvalidValue, []) :=
  set_rgb_rejects_late_invalid (new_default_address okTransport) 1 2 200
    (Or.inr (by decide))

end NCP

namespace NCP

/-- Claim C5: with three valid values and a transport whose writes to the
bound address succeed, `set_rgb` issues exactly three one-byte writes to
the bound address, in the fixed order SetRed, SetGreen, SetBlue, with
payload bytes `0x40 ||| r`, `0x60 ||| g`, `0x80 ||| b`, and returns
success. -/
theorem set_rgb_valid_trace (d : NCP5623 E) (r g b : Nat)
    (hr : r ≤ 31) (hg : g ≤ 31) (hb : b ≤ 31)
    (hok : ∀ data : List Nat, d.i2c d.address data = .ok ()) :
    set_rgb d r g b =
      (.ok (), [⟨d.address, [Nat.lor 0x40 r]⟩,
                ⟨d.address, [Nat.lor 0x60 g]⟩,
                ⟨d.address, [Nat.lor 0x80 b]⟩]) := by
  simp [set_rgb, validate_value_le hr, validate_value_le hg,
    validate_value_le hb, send_command, hok, build_command, Command.toU8]

/-- Witness for C5 at the spec's example inputs (0x11, 0x12, 0x13): the
three writes carry [0x51], [0x72], [0x93], in order, to address 0x38. -/
theorem set_rgb_valid_trace_witness :
    set_rgb (new_default_address okTransport) 0x11 0x12 0x13 =
      (.ok (), [⟨0x38, [0x51]⟩, ⟨0x38, [0x72]⟩, ⟨0x38, [0x93]⟩]) := by
  have h := set_rgb_valid_trace (new_default_address okTransport)
    0x11 0x12 0x13 (by decide) (by decide) (by decide) (fun _ => rfl)
  exact h.trans rfl

/-- Claim C6: a transport failure `e` on any write makes the operation
return `WriteError e` (wrapping exactly `e`), and no further bytes of
that operation are sent after the failing write. Clause 1: `send_command`
in general (hence every single-byte operation). Clause 2: a validated
single-byte operation, `set_red`. Clauses 3 and 4: `set_rgb` failing on
the first or on the second byte stops the remaining sends. -/
theorem transport_failure_propagates (d : NCP5623 E) (e : E) :
    (∀ cmd v, d.i2c d.address [build_command cmd v] = .error e →
      send_command d cmd v =
        (.error (.WriteError e), [⟨d.address, [build_command cmd v]⟩])) ∧
    (∀ v, v ≤ 31 → d.i2c d.address [build_command .SetRed v] = .error e →
      set_red d v =
        (.error (.WriteError e), [⟨d.address, [build_command .SetRed v]⟩])) ∧
    (∀ r g b, r ≤ 31 → g ≤ 31 → b ≤ 31 →
      d.i2c d.address [build_command .SetRed r] = .error e →
      set_rgb d r g b =
        (.error (.WriteError e), [⟨d.address, [build_command .SetRed r]⟩])) ∧
    (∀ r g b, r ≤ 31 → g ≤ 31 → b ≤ 31 →
      d.i2c d.address [build_command .SetRed r] = .ok () →
      d.i2c d.address [build_command .SetGreen g] = .error e →
      set_rgb d r g b =
        (.error (.WriteError e),
         [⟨d.address, [build_command .SetRed r]⟩,
          ⟨d.address, [build_command .SetGreen g]⟩])) := by
  refine ⟨?_, ?_, ?_, ?_⟩
  · intro cmd v hfail
    simp [send_command, hfail]
  · intro v hv hfail
    simp [set_red, validate_value_le hv, send_command, hfail]
  · intro r g b hr hg hb hfail
    simp [set_rgb, validate_value_le hr, validate_value_le hg,
      validate_value_le hb, send_command, hfail]
  · intro r g b hr hg hb hok hfail
    simp [set_rgb, validate_value_le hr, validate_value_le hg,
      validate_value_le hb, send_command, hok, hfail]

/-- Witness for C6: a transport that fails exactly on the byte 0x72 (the
SetGreen byte for value 0x12) makes `set_rgb 0x11 0x12 0x13` stop after
two writes and return `WriteError ()`. -/
theorem transport_failure_propagates_witness :
    set_rgb (new_default_address (failTransport 0x72)) 0x11 0x12 0x13 =
      (.error (.WriteError ()), [⟨0x38, [0x51]⟩, ⟨0x38, [0x72]⟩]) := by
  have h := (transport_failure_propagates
      (new_default_address (failTransport 0x72)) ()).2.2.2
    0x11 0x12 0x13 (by decide) (by decide) (by decide) rfl rfl
  exact h.trans rfl

end NCP
